import Mathlib

set_option maxHeartbeats 1000000

/-!
Shallow embedding of `src/main.rs` of the `bingwallpaper` repository.

The program is a Windows background process that periodically downloads the
Bing image of the day and sets it as the desktop wallpaper.  External calls
(HTTP, filesystem, Windows API, registry) are modelled by an oracle `Env`
fixing each call's outcome, an explicit filesystem state `FS`, and a trace of
observable `Effect`s.  `Path::join` is modelled with the separator `"/"`.
Success `println!` lines are not recorded in the trace, except the ones the
specification talks about (the cache-hit line, the missing-`images[0]` line,
and the task-failure `eprintln!` lines of `main`).
-/

/-- JSON values as the metadata decoding in `download_bing_wallpaper` inspects
them (`serde_json::Value`, restricted to the shapes the program looks at). -/
inductive Json where
  | null : Json
  | str (s : String) : Json
  | arr (elems : List Json) : Json
  | obj (fields : List (String × Json)) : Json

/-- `value["key"]`: `serde_json`'s `Index` for a string key yields `Null` for a
missing key or a non-object value. -/
def Json.index (j : Json) (key : String) : Json :=
  match j with
  | .obj fields => (fields.lookup key).getD .null
  | _ => .null

/-- `value.get(i)`: `Some` only for an array with `i` in range. -/
def Json.getIdx (j : Json) (i : Nat) : Option Json :=
  match j with
  | .arr elems => elems.get? i
  | _ => none

/-- `value.as_str()`: `Some` only for a JSON string. -/
def Json.as_str (j : Json) : Option String :=
  match j with
  | .str s => some s
  | _ => none

/-- Observable external actions of the program, recorded as a trace. -/
inductive Effect where
  | httpGet (url : String) : Effect
  | createDirAll (path : String) : Effect
  | fileCreate (path : String) : Effect
  | osDisplayQuery : Effect
  | osSetWallpaper (path : String) : Effect
  | regOpenKey : Effect
  | regSetValue (valueName : String) (value : String) : Effect
  | logLine (msg : String) : Effect
deriving DecidableEq

/-- The error taxonomy: one constructor per `anyhow!`/`context` failure site of
`main.rs`, under the spec's names where it names them. -/
inductive AppError where
  | metadataFetchError : AppError
  | metadataParseError : AppError
  | appDataError : AppError
  | cacheDirError : AppError
  | downloadError : AppError
  | imageWriteError : AppError
  | fileNotFoundError : AppError
  | canonicalizeError : AppError
  | wallpaperApplyError : AppError
  | displayQueryError : AppError
  | selfPathError : AppError
  | registryOpenError : AppError
  | registryWriteError : AppError
  | negativeDurationError : AppError
deriving DecidableEq

/-- The filesystem state the program reads and writes: the directories and the
files that exist. -/
structure FS where
  dirs : List String
  files : List String
deriving DecidableEq

/-- Oracle fixing the outcome of every external call during one run: the
network, the `APPDATA` variable, the filesystem operations, the Windows API
calls and the registry. -/
structure Env where
  metadataHttpOk : Bool
  metadataJson : Option Json
  appdata : Option String
  createDirOk : Bool
  imageHttpOk : Bool
  fileCreateOk : Bool
  copyOk : Bool
  canonicalizeOk : Bool
  setWallpaperApiOk : Bool
  screenResolution : Option (Nat × Nat)
  exePath : Option String
  regOpenOk : Bool
  regWriteOk : Bool

/-- The fixed metadata endpoint (`main.rs` line 43). -/
def json_url : String :=
  "https://www.bing.com/HPImageArchive.aspx?format=js&idx=0&n=1&mkt=zh-CN"

/-- The image-URL template of `main.rs` lines 61-64:
`format!("https://www.bing.com{}_UHD.jpg&rf=LaDigue_{}x{}.jpg&pid=hp", urlbase, resolution.0, resolution.1)`. -/
def image_url (urlbase : String) (resolution : Nat × Nat) : String :=
  "https://www.bing.com" ++ urlbase ++ "_UHD.jpg&rf=LaDigue_" ++
    toString resolution.1 ++ "x" ++ toString resolution.2 ++ ".jpg&pid=hp"

/-- `Path::new(&appdata_dir).join("BingWallpaper").join("Images")`
(`main.rs` line 68), with "/" as the separator. -/
def images_dir (appdata_dir : String) : String :=
  appdata_dir ++ "/BingWallpaper/Images"

/-- `images_dir.join(format!("{}.jpg", fullstartdate))` (`main.rs` lines 72-73). -/
def cache_file_path (appdata_dir fullstartdate : String) : String :=
  images_dir appdata_dir ++ "/" ++ fullstartdate ++ ".jpg"

/-- `download_image` (`main.rs` lines 92-109): GET the URL and copy the body
into a newly created file.  `Url::parse` of the templated URL is modelled as
succeeding.  `File::create` creates the file even when the later `copy`
fails, so the path is added to the filesystem in both cases. -/
def download_image (env : Env) (fs : FS) (url : String) (file_path : String) :
    Except AppError Unit × FS × List Effect :=
  if env.imageHttpOk then
    if env.fileCreateOk then
      if env.copyOk then
        (.ok (), { fs with files := file_path :: fs.files },
          [Effect.httpGet url, Effect.fileCreate file_path])
      else
        (.error .imageWriteError, { fs with files := file_path :: fs.files },
          [Effect.httpGet url, Effect.fileCreate file_path])
    else
      (.error .imageWriteError, fs, [Effect.httpGet url])
  else
    (.error .downloadError, fs, [Effect.httpGet url])

/-- `set_wallpaper` (`main.rs` lines 112-144): fail when the path does not
exist, canonicalize it (modelled as the identity on the path string), then one
`SystemParametersInfoW(SPI_SETDESKWALLPAPER, ...)` call. -/
def set_wallpaper (env : Env) (fs : FS) (file_path : String) :
    Except AppError Unit × List Effect :=
  if file_path ∈ fs.files then
    if env.canonicalizeOk then
      if env.setWallpaperApiOk then
        (.ok (), [Effect.osSetWallpaper file_path])
      else
        (.error .wallpaperApplyError, [Effect.osSetWallpaper file_path])
    else
      (.error .canonicalizeError, [])
  else
    (.error .fileNotFoundError, [])

/-- The tail of `download_bing_wallpaper` after the cache directory is known
to exist (`main.rs` lines 72-83): cache-hit early return, else download the
image to the cache path and set it as wallpaper. -/
def download_after_dir (env : Env) (fs : FS) (effsPre : List Effect)
    (appdata_dir fullstartdate img_url : String) :
    Except AppError Unit × FS × List Effect :=
  let file_path := cache_file_path appdata_dir fullstartdate
  if file_path ∈ fs.files then
    (.ok (), fs, effsPre ++ [Effect.logLine "图片已存在"])
  else
    match download_image env fs img_url file_path with
    | (.error e, fs2, effs2) => (.error e, fs2, effsPre ++ effs2)
    | (.ok _, fs2, effs2) =>
      match set_wallpaper env fs2 file_path with
      | (r, effs3) => (r, fs2, effsPre ++ effs2 ++ effs3)

/-- `download_bing_wallpaper` (`main.rs` lines 41-89): GET the metadata JSON,
extract `images[0]`, build the image URL, ensure the cache directory, return
early on a cache hit, otherwise download the image and set it as wallpaper.
When `images[0]` is missing the function logs and returns `Ok(())`. -/
def download_bing_wallpaper (env : Env) (fs : FS) (resolution : Nat × Nat) :
    Except AppError Unit × FS × List Effect :=
  let effs0 := [Effect.httpGet json_url]
  if env.metadataHttpOk then
    match env.metadataJson with
    | none => (.error .metadataParseError, fs, effs0)
    | some json_data =>
      match (json_data.index "images").getIdx 0 with
      | some image =>
        let urlbase := ((image.index "urlbase").as_str).getD ""
        let fullstartdate := ((image.index "fullstartdate").as_str).getD "unknown_date"
        let img_url := image_url urlbase resolution
        match env.appdata with
        | none => (.error .appDataError, fs, effs0)
        | some appdata_dir =>
          let dir := images_dir appdata_dir
          if dir ∈ fs.dirs then
            download_after_dir env fs effs0 appdata_dir fullstartdate img_url
          else if env.createDirOk then
            download_after_dir env { fs with dirs := dir :: fs.dirs }
              (effs0 ++ [Effect.createDirAll dir]) appdata_dir fullstartdate img_url
          else
            (.error .cacheDirError, fs, effs0 ++ [Effect.createDirAll dir])
      | none =>
        (.ok (), fs, effs0 ++ [Effect.logLine "无法找到图片信息"])
  else
    (.error .metadataFetchError, fs, effs0)

/-- `get_screen_resolution` (`main.rs` lines 21-38): one
`EnumDisplaySettingsW` query of the current display mode. -/
def get_screen_resolution (env : Env) : Except AppError (Nat × Nat) × List Effect :=
  match env.screenResolution with
  | some r => (.ok r, [Effect.osDisplayQuery])
  | none => (.error .displayQueryError, [Effect.osDisplayQuery])

/-- `run_task` (`main.rs` lines 208-218): query the resolution, then fetch and
set the wallpaper; the first error propagates via `?`. -/
def run_task (env : Env) (fs : FS) : Except AppError Unit × FS × List Effect :=
  match get_screen_resolution env with
  | (.error e, effs) => (.error e, fs, effs)
  | (.ok resolution, effs) =>
    match download_bing_wallpaper env fs resolution with
    | (r, fs1, effs1) => (r, fs1, effs ++ effs1)

/-- `add_to_startup` (`main.rs` lines 147-170): resolve the executable's own
path, open `HKCU\...\Run` with write access, set the value `BingWallpaper`. -/
def add_to_startup (env : Env) : Except AppError Unit × List Effect :=
  match env.exePath with
  | none => (.error .selfPathError, [])
  | some exe_path_str =>
    if env.regOpenOk then
      if env.regWriteOk then
        (.ok (), [Effect.regOpenKey, Effect.regSetValue "BingWallpaper" exe_path_str])
      else
        (.error .registryWriteError,
          [Effect.regOpenKey, Effect.regSetValue "BingWallpaper" exe_path_str])
    else
      (.error .registryOpenError, [Effect.regOpenKey])

/-- The fixed cron expression `"0 */10 * * * *"` (`main.rs` line 178) matches
an instant, counted in seconds, iff its second field is 0 and its minute is
divisible by 10, i.e. iff the instant is a multiple of 600 seconds. -/
def cron_matches (t : Nat) : Bool := t % 600 == 0

/-- `schedule.upcoming(UTC).next()` for the fixed expression: the cron crate
yields matching instants strictly after the queried time, so the next fire
instant from `t` is the least multiple of 600 strictly greater than `t`. -/
def next_fire (t : Nat) : Nat := (t / 600 + 1) * 600

/-- `chrono::Duration::to_std` (`main.rs` line 200): fails on a negative
duration (out of range for `std::time::Duration`). -/
def duration_to_std (d : Int) : Except AppError Nat :=
  if d < 0 then .error .negativeDurationError else .ok d.toNat

/-- One iteration of the scheduler loop of `main` (`main.rs` lines 186-205).
`now` is the instant captured at the top of the iteration; `query_time` is the
instant at which `schedule.upcoming` reads the clock (the crate reads the
current time itself, shortly after `now` was captured).  A `run_task` error is
caught and logged with `eprintln!`; a `duration_to_std` error propagates out
of `main` via `?`. -/
def loop_iter (env : Env) (fs : FS) (now query_time : Nat) :
    Except AppError FS × List Effect :=
  let next := next_fire query_time
  let duration : Int := (next : Int) - (now : Int)
  match duration_to_std duration with
  | .error e => (.error e, [])
  | .ok _ =>
    match run_task env fs with
    | (.ok _, fs1, effs) => (.ok fs1, effs)
    | (.error _, fs1, effs) => (.ok fs1, effs ++ [Effect.logLine "任务执行失败"])

/-- The scheduler loop of `main`, run for a given finite list of
`(now, query_time)` instants, one per tick (the real loop is infinite). -/
def run_loop (env : Env) : FS → List (Nat × Nat) → Except AppError FS × List Effect
  | fs, [] => (.ok fs, [])
  | fs, (now, qt) :: rest =>
    match loop_iter env fs now qt with
    | (.error e, effs) => (.error e, effs)
    | (.ok fs1, effs) =>
      match run_loop env fs1 rest with
      | (r, effs2) => (r, effs ++ effs2)

/-- `main` (`main.rs` lines 174-206): autostart registration, fatal on error
via `?`; one immediate task run whose error is only logged; then the
scheduler loop.  `Schedule::from_str` of the fixed literal expression always
succeeds. -/
def main_run (env : Env) (fs : FS) (iters : List (Nat × Nat)) :
    Except AppError FS × List Effect :=
  match add_to_startup env with
  | (.error e, effs) => (.error e, effs)
  | (.ok _, effs) =>
    match run_task env fs with
    | (r1, fs1, effs1) =>
      let logs1 : List Effect :=
        match r1 with
        | .ok _ => []
        | .error _ => [Effect.logLine "启动时任务执行失败"]
      match run_loop env fs1 iters with
      | (r2, effs2) => (r2, effs ++ effs1 ++ logs1 ++ effs2)

/-- The metadata JSON shape `{ images: [ { urlbase, fullstartdate } ] }`
returned by the endpoint, used to instantiate the theorems. -/
def bingJson (urlbase fullstartdate : String) : Json :=
  Json.obj [("images", Json.arr [Json.obj
    [("urlbase", Json.str urlbase), ("fullstartdate", Json.str fullstartdate)]])]

/-! ## Helper lemmas shared by the claim theorems -/

/-- On the all-success path with a cache miss, `download_bing_wallpaper`
requests the metadata, requests the templated image URL, writes the cache
file and issues the wallpaper OS call. -/
theorem dbw_success (env : Env) (fs : FS) (ub fsd ad : String) (res : Nat × Nat)
    (hhttp : env.metadataHttpOk = true)
    (hjson : env.metadataJson = some (bingJson ub fsd))
    (had : env.appdata = some ad)
    (hdir : images_dir ad ∈ fs.dirs)
    (hmiss : cache_file_path ad fsd ∉ fs.files)
    (himg : env.imageHttpOk = true)
    (hfc : env.fileCreateOk = true)
    (hcp : env.copyOk = true)
    (hcanon : env.canonicalizeOk = true)
    (hapi : env.setWallpaperApiOk = true) :
    download_bing_wallpaper env fs res =
      (.ok (), { fs with files := cache_file_path ad fsd :: fs.files },
        [Effect.httpGet json_url, Effect.httpGet (image_url ub res),
         Effect.fileCreate (cache_file_path ad fsd),
         Effect.osSetWallpaper (cache_file_path ad fsd)]) := by
  simp [download_bing_wallpaper, download_after_dir, download_image, set_wallpaper,
    bingJson, Json.index, Json.getIdx, Json.as_str, List.lookup, Option.getD,
    hhttp, hjson, had, hdir, hmiss, himg, hfc, hcp, hcanon, hapi]

/-- On a cache hit, `download_bing_wallpaper` only requests the metadata, logs
the cache-hit line, and returns `Ok(())` with the filesystem unchanged. -/
theorem dbw_hit (env : Env) (fs : FS) (ub fsd ad : String) (res : Nat × Nat)
    (hhttp : env.metadataHttpOk = true)
    (hjson : env.metadataJson = some (bingJson ub fsd))
    (had : env.appdata = some ad)
    (hdir : images_dir ad ∈ fs.dirs)
    (hhit : cache_file_path ad fsd ∈ fs.files) :
    download_bing_wallpaper env fs res =
      (.ok (), fs, [Effect.httpGet json_url, Effect.logLine "图片已存在"]) := by
  simp [download_bing_wallpaper, download_after_dir,
    bingJson, Json.index, Json.getIdx, Json.as_str, List.lookup, Option.getD,
    hhttp, hjson, had, hdir, hhit]

/-- The templated image URL (ending in `"p"`) is never the metadata URL
(ending in `"N"`), whatever `urlbase` is. -/
theorem image_url_ne_json_url (ub : String) (r : Nat × Nat) :
    image_url ub r ≠ json_url := by
  intro h
  have h1 : (image_url ub r).data.getLast? = some 'p' := by
    rw [image_url, String.data_append,
      List.getLast?_append_of_ne_nil _ (by decide : (".jpg&pid=hp".data) ≠ [])]
    decide
  rw [h] at h1
  exact absurd h1 (by decide)

/-- `add_to_startup` only touches the registry: every effect it emits is the
key-open or the value-write. -/
theorem add_to_startup_effects (env : Env) :
    ∀ eff ∈ (add_to_startup env).2, eff = Effect.regOpenKey ∨
      ∃ s, eff = Effect.regSetValue "BingWallpaper" s := by
  intro eff h
  rcases henv : env.exePath with _ | s <;>
    rcases hro : env.regOpenOk <;>
      rcases hrw : env.regWriteOk <;>
        simp [add_to_startup, henv, hro, hrw] at h <;> tauto

/-! ## Concrete environments used by the witnesses -/

/-- An environment where every external call succeeds and the metadata is the
end-to-end scenario of the spec. -/
def env_c1 : Env where
  metadataHttpOk := true
  metadataJson := some (bingJson "/th?id=OHR.Test" "20240101")
  appdata := some "C:/Users/me/AppData/Roaming"
  createDirOk := true
  imageHttpOk := true
  fileCreateOk := true
  copyOk := true
  canonicalizeOk := true
  setWallpaperApiOk := true
  screenResolution := some (1920, 1080)
  exePath := some "C:/BingWallpaper.exe"
  regOpenOk := true
  regWriteOk := true

/-- A filesystem where the cache directory exists and no image is cached. -/
def fs_c1 : FS where
  dirs := ["C:/Users/me/AppData/Roaming/BingWallpaper/Images"]
  files := []

/-- A filesystem where the day's image is already cached. -/
def fs_hit : FS where
  dirs := ["C:/Users/me/AppData/Roaming/BingWallpaper/Images"]
  files := ["C:/Users/me/AppData/Roaming/BingWallpaper/Images/20240101.jpg"]

/-- Like `env_c1`, but the metadata body is valid JSON with no `images` array. -/
def env_c2 : Env where
  metadataHttpOk := true
  metadataJson := some (Json.obj [("copyright", Json.str "test")])
  appdata := some "C:/Users/me/AppData/Roaming"
  createDirOk := true
  imageHttpOk := true
  fileCreateOk := true
  copyOk := true
  canonicalizeOk := true
  setWallpaperApiOk := true
  screenResolution := some (1920, 1080)
  exePath := some "C:/BingWallpaper.exe"
  regOpenOk := true
  regWriteOk := true

/-- Like `env_c1`, but the display query fails. -/
def env_c6 : Env where
  metadataHttpOk := true
  metadataJson := some (bingJson "/th?id=OHR.Test" "20240101")
  appdata := some "C:/Users/me/AppData/Roaming"
  createDirOk := true
  imageHttpOk := true
  fileCreateOk := true
  copyOk := true
  canonicalizeOk := true
  setWallpaperApiOk := true
  screenResolution := none
  exePath := some "C:/BingWallpaper.exe"
  regOpenOk := true
  regWriteOk := true

/-- Like `env_c1`, but the executable's own path cannot be determined. -/
def env_c9 : Env where
  metadataHttpOk := true
  metadataJson := some (bingJson "/th?id=OHR.Test" "20240101")
  appdata := some "C:/Users/me/AppData/Roaming"
  createDirOk := true
  imageHttpOk := true
  fileCreateOk := true
  copyOk := true
  canonicalizeOk := true
  setWallpaperApiOk := true
  screenResolution := some (1920, 1080)
  exePath := none
  regOpenOk := true
  regWriteOk := true

/-! ## Claim theorems -/

/-- C1: for every metadata response with a non-empty `urlbase` and
`fullstartdate` and every queried resolution `(w, h)`, the image URL the
program requests equals the template
`"https://www.bing.com" ++ urlbase ++ "_UHD.jpg&rf=LaDigue_" ++ w ++ "x" ++ h ++ ".jpg&pid=hp"`;
for `(1920, 1080)` and `urlbase = "/th?id=OHR.Test"` the URL is the literal of
the spec, and the cache path for `fullstartdate = "20240101"` ends in
`"Images/20240101.jpg"`. -/
theorem bing_url_template_correct (env : Env) (fs : FS) (ub fsd ad : String) (w h : Nat)
    (hhttp : env.metadataHttpOk = true)
    (hjson : env.metadataJson = some (bingJson ub fsd))
    (hub : ub ≠ "") (hfsd : fsd ≠ "")
    (had : env.appdata = some ad)
    (hdir : images_dir ad ∈ fs.dirs)
    (hmiss : cache_file_path ad fsd ∉ fs.files)
    (himg : env.imageHttpOk = true) (hfc : env.fileCreateOk = true)
    (hcp : env.copyOk = true) (hcanon : env.canonicalizeOk = true)
    (hapi : env.setWallpaperApiOk = true) :
    Effect.httpGet ("https://www.bing.com" ++ ub ++ "_UHD.jpg&rf=LaDigue_" ++
        toString w ++ "x" ++ toString h ++ ".jpg&pid=hp")
      ∈ (download_bing_wallpaper env fs (w, h)).2.2
    ∧ image_url "/th?id=OHR.Test" (1920, 1080) =
        "https://www.bing.com/th?id=OHR.Test_UHD.jpg&rf=LaDigue_1920x1080.jpg&pid=hp"
    ∧ cache_file_path ad "20240101" = (ad ++ "/BingWallpaper/") ++ "Images/20240101.jpg" := by
  refine ⟨?_, by rfl, ?_⟩
  · rw [dbw_success env fs ub fsd ad (w, h) hhttp hjson had hdir hmiss himg hfc hcp hcanon hapi]
    simp [image_url]
  · apply String.ext
    simp only [cache_file_path, images_dir, String.data_append, List.append_assoc]
    exact congrArg (fun l => ad.data ++ l) (by decide)

/-- Witness for C1 at the spec's end-to-end scenario. -/
theorem bing_url_template_correct_witness :
    Effect.httpGet ("https://www.bing.com" ++ "/th?id=OHR.Test" ++ "_UHD.jpg&rf=LaDigue_" ++
        toString 1920 ++ "x" ++ toString 1080 ++ ".jpg&pid=hp")
      ∈ (download_bing_wallpaper env_c1 fs_c1 (1920, 1080)).2.2
    ∧ image_url "/th?id=OHR.Test" (1920, 1080) =
        "https://www.bing.com/th?id=OHR.Test_UHD.jpg&rf=LaDigue_1920x1080.jpg&pid=hp"
    ∧ cache_file_path "C:/Users/me/AppData/Roaming" "20240101" =
        ("C:/Users/me/AppData/Roaming" ++ "/BingWallpaper/") ++ "Images/20240101.jpg" :=
  bing_url_template_correct env_c1 fs_c1 "/th?id=OHR.Test" "20240101"
    "C:/Users/me/AppData/Roaming" 1920 1080
    rfl rfl (by decide) (by decide) rfl (by decide) (by decide) rfl rfl rfl rfl rfl

/-- C2 counterexample: when the metadata body is valid JSON without an
`images[0]` entry, the fetch returns `Ok(())`, not `MetadataParseError` — the
claim that it fails is false on the code. -/
theorem fetch_missing_images_cex :
    (download_bing_wallpaper env_c2 ⟨[], []⟩ (1920, 1080)).1 = Except.ok ()
    ∧ (download_bing_wallpaper env_c2 ⟨[], []⟩ (1920, 1080)).1 ≠
        Except.error AppError.metadataParseError := by
  constructor
  · rfl
  · intro h
    rw [show (download_bing_wallpaper env_c2 ⟨[], []⟩ (1920, 1080)).1 = Except.ok () from rfl] at h
    exact Except.noConfusion h

/-- C2 (amended): when the metadata body is valid JSON but lacks an
`images[0]` entry, the fetch logs a message and returns success, issuing no
further request; `MetadataParseError` arises only when the body is not valid
JSON. -/
theorem fetch_missing_images_not_error (env : Env) (fs : FS) (res : Nat × Nat) (j : Json)
    (hhttp : env.metadataHttpOk = true)
    (hjson : env.metadataJson = some j)
    (hnoimg : (j.index "images").getIdx 0 = none) :
    download_bing_wallpaper env fs res =
      (.ok (), fs, [Effect.httpGet json_url, Effect.logLine "无法找到图片信息"]) := by
  simp [download_bing_wallpaper, hhttp, hjson, hnoimg]

/-- Witness for the amended C2. -/
theorem fetch_missing_images_not_error_witness :
    download_bing_wallpaper env_c2 ⟨[], []⟩ (1920, 1080) =
      (.ok (), ⟨[], []⟩, [Effect.httpGet json_url, Effect.logLine "无法找到图片信息"]) :=
  fetch_missing_images_not_error env_c2 ⟨[], []⟩ (1920, 1080)
    (Json.obj [("copyright", Json.str "test")]) rfl rfl rfl

/-- C3: the fetch step is idempotent with respect to the cache: whenever the
cache file for `fullstartdate` exists, the fetch returns success immediately
with the filesystem unchanged and only the metadata request in its trace (no
HTTP request for the image); and two successive fetches starting from a cache
miss perform exactly one HTTP download of the image. -/
theorem fetch_cache_idempotent (env : Env) (fs : FS) (ub fsd ad : String) (res : Nat × Nat)
    (hhttp : env.metadataHttpOk = true)
    (hjson : env.metadataJson = some (bingJson ub fsd))
    (had : env.appdata = some ad)
    (hdir : images_dir ad ∈ fs.dirs)
    (hmiss : cache_file_path ad fsd ∉ fs.files)
    (himg : env.imageHttpOk = true) (hfc : env.fileCreateOk = true)
    (hcp : env.copyOk = true) (hcanon : env.canonicalizeOk = true)
    (hapi : env.setWallpaperApiOk = true) :
    (∀ fs2 : FS, images_dir ad ∈ fs2.dirs → cache_file_path ad fsd ∈ fs2.files →
      download_bing_wallpaper env fs2 res =
        (.ok (), fs2, [Effect.httpGet json_url, Effect.logLine "图片已存在"]))
    ∧ ((download_bing_wallpaper env fs res).2.2 ++
        (download_bing_wallpaper env (download_bing_wallpaper env fs res).2.1 res).2.2).count
          (Effect.httpGet (image_url ub res)) = 1 := by
  have h1 := dbw_success env fs ub fsd ad res hhttp hjson had hdir hmiss himg hfc hcp hcanon hapi
  constructor
  · intro fs2 hdir2 hhit2
    exact dbw_hit env fs2 ub fsd ad res hhttp hjson had hdir2 hhit2
  · simp only [h1]
    rw [dbw_hit env { dirs := fs.dirs, files := cache_file_path ad fsd :: fs.files } ub fsd ad res
      hhttp hjson had hdir (List.mem_cons_self _ _)]
    simp [List.count_cons, List.count_append, image_url_ne_json_url ub res]

/-- Witness for C3: concrete cache hit and concrete double call. -/
theorem fetch_cache_idempotent_witness :
    download_bing_wallpaper env_c1 fs_hit (1920, 1080) =
      (.ok (), fs_hit, [Effect.httpGet json_url, Effect.logLine "图片已存在"])
    ∧ ((download_bing_wallpaper env_c1 fs_c1 (1920, 1080)).2.2 ++
        (download_bing_wallpaper env_c1
          (download_bing_wallpaper env_c1 fs_c1 (1920, 1080)).2.1 (1920, 1080)).2.2).count
          (Effect.httpGet (image_url "/th?id=OHR.Test" (1920, 1080))) = 1 :=
  ⟨(fetch_cache_idempotent env_c1 fs_c1 "/th?id=OHR.Test" "20240101"
      "C:/Users/me/AppData/Roaming" (1920, 1080)
      rfl rfl rfl (by decide) (by decide) rfl rfl rfl rfl rfl).1 fs_hit (by decide) (by decide),
   (fetch_cache_idempotent env_c1 fs_c1 "/th?id=OHR.Test" "20240101"
      "C:/Users/me/AppData/Roaming" (1920, 1080)
      rfl rfl rfl (by decide) (by decide) rfl rfl rfl rfl rfl).2⟩

/-- C4: on a cache hit, the fetch-and-set sequence returns success with the
filesystem unchanged and never issues the wallpaper-set OS call. -/
theorem cache_hit_skips_wallpaper_set (env : Env) (fs : FS) (ub fsd ad : String)
    (res : Nat × Nat)
    (hhttp : env.metadataHttpOk = true)
    (hjson : env.metadataJson = some (bingJson ub fsd))
    (had : env.appdata = some ad)
    (hdir : images_dir ad ∈ fs.dirs)
    (hhit : cache_file_path ad fsd ∈ fs.files) :
    (download_bing_wallpaper env fs res).1 = Except.ok ()
    ∧ (download_bing_wallpaper env fs res).2.1 = fs
    ∧ ∀ p, Effect.osSetWallpaper p ∉ (download_bing_wallpaper env fs res).2.2 := by
  have h := dbw_hit env fs ub fsd ad res hhttp hjson had hdir hhit
  exact ⟨by rw [h], by rw [h], fun p => by rw [h]; simp⟩

/-- Witness for C4 at a concrete cache hit. -/
theorem cache_hit_skips_wallpaper_set_witness :
    (download_bing_wallpaper env_c1 fs_hit (1920, 1080)).1 = Except.ok ()
    ∧ (download_bing_wallpaper env_c1 fs_hit (1920, 1080)).2.1 = fs_hit
    ∧ Effect.osSetWallpaper "C:/Users/me/AppData/Roaming/BingWallpaper/Images/20240101.jpg"
        ∉ (download_bing_wallpaper env_c1 fs_hit (1920, 1080)).2.2 :=
  have h := cache_hit_skips_wallpaper_set env_c1 fs_hit "/th?id=OHR.Test" "20240101"
    "C:/Users/me/AppData/Roaming" (1920, 1080) rfl rfl rfl (by decide) (by decide)
  ⟨h.1, h.2.1, h.2.2 "C:/Users/me/AppData/Roaming/BingWallpaper/Images/20240101.jpg"⟩

/-- C5: under the fixed cron expression firing every 10th minute, the next
fire instant from 12:03:00 (second 43380 of the day) is 12:10:00 (43800), and
from exactly 12:10:00 it is 12:20:00 (44400); in general the next fire
instant is the least matching instant strictly after the current one. -/
theorem cron_next_fire_every_ten_minutes :
    next_fire 43380 = 43800 ∧ next_fire 43800 = 44400
    ∧ ∀ t : Nat, t < next_fire t ∧ cron_matches (next_fire t) = true
        ∧ ∀ u : Nat, t < u → cron_matches u = true → next_fire t ≤ u := by
  refine ⟨by decide, by decide, fun t => ⟨?_, ?_, fun u htu hu => ?_⟩⟩
  · simp only [next_fire]; omega
  · simp only [cron_matches, next_fire, beq_iff_eq]; omega
  · simp only [cron_matches, beq_iff_eq] at hu
    simp only [next_fire]; omega

/-- Witness for C5: strict futurity and minimality at 12:03:00. -/
theorem cron_next_fire_every_ten_minutes_witness :
    43380 < next_fire 43380 ∧ next_fire 43380 ≤ 43800 :=
  ⟨(cron_next_fire_every_ten_minutes.2.2 43380).1,
   (cron_next_fire_every_ten_minutes.2.2 43380).2.2 43800 (by decide) (by decide)⟩

/-- C6: when the display query fails, the task returns the display-query
error, with no HTTP request and no wallpaper-set call in its trace. -/
theorem display_failure_aborts_task (env : Env) (fs : FS)
    (hres : env.screenResolution = none) :
    run_task env fs = (.error .displayQueryError, fs, [Effect.osDisplayQuery])
    ∧ (∀ u, Effect.httpGet u ∉ (run_task env fs).2.2)
    ∧ (∀ p, Effect.osSetWallpaper p ∉ (run_task env fs).2.2) := by
  have h : run_task env fs = (.error .displayQueryError, fs, [Effect.osDisplayQuery]) := by
    simp [run_task, get_screen_resolution, hres]
  exact ⟨h, fun u => by rw [h]; simp, fun p => by rw [h]; simp⟩

/-- Witness for C6 at a concrete failing display query. -/
theorem display_failure_aborts_task_witness :
    run_task env_c6 ⟨[], []⟩ = (.error .displayQueryError, ⟨[], []⟩, [Effect.osDisplayQuery])
    ∧ Effect.httpGet json_url ∉ (run_task env_c6 ⟨[], []⟩).2.2
    ∧ Effect.osSetWallpaper "C:/x.jpg" ∉ (run_task env_c6 ⟨[], []⟩).2.2 :=
  have h := display_failure_aborts_task env_c6 ⟨[], []⟩ rfl
  ⟨h.1, h.2.1 json_url, h.2.2 "C:/x.jpg"⟩

/-- C7: for a path naming no existing file, `set_wallpaper` fails with
`FileNotFoundError` and emits no effect at all; conversely the wallpaper OS
call only appears in the trace when the file exists. -/
theorem set_wallpaper_missing_file (env : Env) (fs : FS) (p : String) :
    (p ∉ fs.files → set_wallpaper env fs p = (.error .fileNotFoundError, []))
    ∧ (∀ q, Effect.osSetWallpaper q ∈ (set_wallpaper env fs p).2 → p ∈ fs.files) := by
  constructor
  · intro h; simp [set_wallpaper, h]
  · intro q hq
    by_cases hp : p ∈ fs.files
    · exact hp
    · simp [set_wallpaper, hp] at hq

/-- Witness for C7: a missing file fails with no OS call, and a concrete OS
call implies the file existed. -/
theorem set_wallpaper_missing_file_witness :
    set_wallpaper env_c1 ⟨[], []⟩ "C:/missing.jpg" = (.error .fileNotFoundError, [])
    ∧ "C:/img.jpg" ∈ (FS.mk [] ["C:/img.jpg"]).files :=
  ⟨(set_wallpaper_missing_file env_c1 ⟨[], []⟩ "C:/missing.jpg").1 (by decide),
   (set_wallpaper_missing_file env_c1 ⟨[], ["C:/img.jpg"]⟩ "C:/img.jpg").2
     "C:/img.jpg" (by decide)⟩

/-- C8: whatever the outcome of `run_task`, a scheduler-loop iteration with a
non-negative sleep duration returns success (control reaches the next tick),
and a failed task is logged — no task-run error terminates the process. -/
theorem task_errors_nonfatal (env : Env) (fs : FS) (now qt : Nat)
    (hnn : (now : Int) ≤ (next_fire qt : Int)) :
    (loop_iter env fs now qt).1 = Except.ok (run_task env fs).2.1
    ∧ (∀ er : AppError, (run_task env fs).1 = Except.error er →
        Effect.logLine "任务执行失败" ∈ (loop_iter env fs now qt).2) := by
  have hd : duration_to_std ((next_fire qt : Int) - (now : Int)) =
      .ok ((next_fire qt : Int) - (now : Int)).toNat := by
    simp only [duration_to_std]
    rw [if_neg (by omega)]
  rcases hr : run_task env fs with ⟨r, fs1, effs⟩
  constructor
  · cases r <;> simp [loop_iter, hd, hr]
  · intro er her
    cases r with
    | ok _ => exact absurd her (by simp)
    | error e => simp [loop_iter, hd, hr]

/-- Witness for C8: a failing display query inside one tick is logged and the
iteration still succeeds. -/
theorem task_errors_nonfatal_witness :
    (loop_iter env_c6 ⟨[], []⟩ 0 0).1 = Except.ok (run_task env_c6 ⟨[], []⟩).2.1
    ∧ Effect.logLine "任务执行失败" ∈ (loop_iter env_c6 ⟨[], []⟩ 0 0).2 :=
  have h := task_errors_nonfatal env_c6 ⟨[], []⟩ 0 0 (by decide)
  ⟨h.1, h.2 AppError.displayQueryError rfl⟩

/-- C9: when autostart registration fails at startup (`SelfPathError`,
`RegistryOpenError` or `RegistryWriteError`), `main` returns that error before
the first task run: no display query, no HTTP request and no wallpaper-set
call has been issued. -/
theorem startup_failure_fatal (env : Env) (fs : FS) (iters : List (Nat × Nat))
    (e : AppError) (effs : List Effect)
    (hfail : add_to_startup env = (.error e, effs)) :
    main_run env fs iters = (.error e, effs)
    ∧ Effect.osDisplayQuery ∉ effs
    ∧ (∀ u, Effect.httpGet u ∉ effs)
    ∧ (∀ p, Effect.osSetWallpaper p ∉ effs) := by
  have h2 : (add_to_startup env).2 = effs := by rw [hfail]
  refine ⟨by simp [main_run, hfail], ?_, ?_, ?_⟩
  · intro hmem
    rw [← h2] at hmem
    rcases add_to_startup_effects env _ hmem with h | ⟨s, h⟩ <;> simp at h
  · intro u hmem
    rw [← h2] at hmem
    rcases add_to_startup_effects env _ hmem with h | ⟨s, h⟩ <;> simp at h
  · intro p hmem
    rw [← h2] at hmem
    rcases add_to_startup_effects env _ hmem with h | ⟨s, h⟩ <;> simp at h

/-- Witness for C9: a failing self-path resolution aborts `main` with
`SelfPathError` and an empty effect trace. -/
theorem startup_failure_fatal_witness :
    main_run env_c9 ⟨[], []⟩ [] = (.error .selfPathError, [])
    ∧ Effect.osDisplayQuery ∉ ([] : List Effect) :=
  have h := startup_failure_fatal env_c9 ⟨[], []⟩ [] AppError.selfPathError [] rfl
  ⟨h.1, h.2.1⟩

/-- C10: a negative sleep duration is not clamped: `Duration::to_std` fails,
the loop iteration returns the error instead of continuing, and the error
propagates out of the scheduler loop (terminating `main`). -/
theorem negative_sleep_duration_fatal (env : Env) (fs : FS) (now qt : Nat)
    (rest : List (Nat × Nat))
    (hneg : (next_fire qt : Int) - (now : Int) < 0) :
    loop_iter env fs now qt = (.error .negativeDurationError, [])
    ∧ (run_loop env fs ((now, qt) :: rest)).1 = Except.error .negativeDurationError := by
  have h1 : loop_iter env fs now qt = (.error .negativeDurationError, []) := by
    simp [loop_iter, duration_to_std, hneg]
  exact ⟨h1, by simp [run_loop, h1]⟩

/-- Witness for C10 at a captured time later than the computed fire instant. -/
theorem negative_sleep_duration_fatal_witness :
    loop_iter env_c1 ⟨[], []⟩ 601 0 = (.error .negativeDurationError, [])
    ∧ (run_loop env_c1 ⟨[], []⟩ [(601, 0)]).1 = Except.error .negativeDurationError :=
  negative_sleep_duration_fatal env_c1 ⟨[], []⟩ 601 0 [] (by decide)
